import Mathlib

/-!
Verification of the ASR rendering abstraction (shader lifecycle, geometry
generators, fragment-shader texturing, mesh construction) against its
natural-language specification.  GPU interaction is modelled as an oracle
describing the GL driver's answers plus an explicit trace of GL calls.
-/

namespace asr

/-- A GL call observable in the trace of a shader-lifecycle operation.
`deleteProgram` and `useProgram` carry the `GLuint` obtained by casting the
stored `int` handle, exactly as the source casts `_program`. -/
inductive GLEvent where
  | createShader (shader_type : Nat) (obj : Nat)
  | compileShader (obj : Nat)
  | deleteShader (obj : Nat)
  | createProgram (prog : Nat)
  | attachShader (prog : Nat) (obj : Nat)
  | linkProgram (prog : Nat)
  | detachShader (prog : Nat) (obj : Nat)
  | deleteProgram (prog : Nat)
  | useProgram (prog : Nat)
  | logReport (obj : Nat)
  deriving DecidableEq, Repr

/-- 2^32, the modulus of `GLuint` arithmetic. -/
def UINT_MOD : Nat := 2 ^ 32

/-- `static_cast<int>` of a `GLuint` value (two's-complement reinterpretation). -/
def uintToInt (x : Nat) : Int :=
  if x % UINT_MOD < 2 ^ 31 then ((x % UINT_MOD : Nat) : Int)
  else ((x % UINT_MOD : Nat) : Int) - (UINT_MOD : Int)

/-- `static_cast<GLuint>` of an `int` value (reduction modulo 2^32). -/
def intToUint (x : Int) : Nat := (x % (UINT_MOD : Int)).toNat

def GL_VERTEX_SHADER : Nat := 0x8B31

def GL_FRAGMENT_SHADER : Nat := 0x8B30

/-- The GL driver's behaviour during one `compile()` call: the handles it
hands out, whether each stage compiles, whether the link succeeds, the
info-log lengths it reports, and the locations it resolves names to. -/
structure GLOracle where
  vertexShaderId : Nat
  fragmentShaderId : Nat
  programId : Nat
  vertexCompileOk : Bool
  fragmentCompileOk : Bool
  linkOk : Bool
  vertexInfoLogLen : Int
  fragmentInfoLogLen : Int
  linkInfoLogLen : Int
  attribLocation : String → Int
  uniformLocation : String → Int

/-- The state of an `ES2Shader` object: the two source strings and the fields
`_program`, `_dead`, `_attributes`, `_uniforms` inherited from `Shader`. -/
structure ES2Shader where
  _vertex_shader_source : String
  _fragment_shader_source : String
  _program : Int
  _dead : Bool
  _attributes : List (String × Int)
  _uniforms : List (String × Int)

/-- Modelled from the spec: the base `Shader` class (renderer/shader.h is not
in src/) stores the two stage sources and the declared attribute and uniform
names; the program starts Uninitialized (`_program = -1`, `_dead = false`) and
every name maps to location -1 ("-1 until resolved"). -/
def Shader.init (vertex_shader_source fragment_shader_source : String)
    (attributes uniforms : List String) : ES2Shader :=
  { _vertex_shader_source := vertex_shader_source
    _fragment_shader_source := fragment_shader_source
    _program := -1
    _dead := false
    _attributes := attributes.map (fun n => (n, -1))
    _uniforms := uniforms.map (fun n => (n, -1)) }

/-- `ES2Shader::_compile_shader`: creates and compiles one stage.  On failure
it prints the info log when non-empty, assigns `_program = -1` and returns it;
on success it returns the shader object handle cast to `int`. -/
def ES2Shader._compile_shader (s : ES2Shader) (gl : GLOracle) (shader_type : Nat) :
    Int × ES2Shader × List GLEvent :=
  let shader_object : Nat :=
    if shader_type = GL_VERTEX_SHADER then gl.vertexShaderId else gl.fragmentShaderId
  let status : Bool :=
    if shader_type = GL_VERTEX_SHADER then gl.vertexCompileOk else gl.fragmentCompileOk
  let events := [GLEvent.createShader shader_type shader_object,
    GLEvent.compileShader shader_object]
  if status = false then
    let info_log_length : Int :=
      if shader_type = GL_VERTEX_SHADER then gl.vertexInfoLogLen else gl.fragmentInfoLogLen
    let log_events := if 0 < info_log_length then [GLEvent.logReport shader_object] else []
    (-1, { s with _program := -1 }, events ++ log_events)
  else
    (uintToInt shader_object, s, events)

/-- `ES2Shader::_link_shader`: creates a program, attaches both shader
objects and links.  On failure it prints the info log when non-empty, assigns
`_program = -1` and returns it — without deleting the two shader objects.  On
success it detaches and deletes the shader objects, resolves every declared
attribute and uniform name to its location, and returns the program handle
cast to `int`. -/
def ES2Shader._link_shader (s : ES2Shader) (gl : GLOracle)
    (vertex_shader_object fragment_shader_object : Nat) :
    Int × ES2Shader × List GLEvent :=
  let shader_program := gl.programId
  let events := [GLEvent.createProgram shader_program,
    GLEvent.attachShader shader_program vertex_shader_object,
    GLEvent.attachShader shader_program fragment_shader_object,
    GLEvent.linkProgram shader_program]
  if gl.linkOk = false then
    let log_events := if 0 < gl.linkInfoLogLen then [GLEvent.logReport shader_program] else []
    (-1, { s with _program := -1 }, events ++ log_events)
  else
    let events2 := [GLEvent.detachShader shader_program vertex_shader_object,
      GLEvent.detachShader shader_program fragment_shader_object,
      GLEvent.deleteShader vertex_shader_object,
      GLEvent.deleteShader fragment_shader_object]
    let s2 := { s with
      _attributes := s._attributes.map (fun a => (a.1, gl.attribLocation a.1))
      _uniforms := s._uniforms.map (fun u => (u.1, gl.uniformLocation u.1)) }
    (uintToInt shader_program, s2, events ++ events2)

/-- `ES2Shader::cleanup`: deletes the program object if one is present, then
resets `_program` to -1 and clears `_dead`. -/
def ES2Shader.cleanup (s : ES2Shader) : ES2Shader × List GLEvent :=
  let events := if s._program ≠ -1 then [GLEvent.deleteProgram (intToUint s._program)] else []
  ({ s with _program := -1, _dead := false }, events)

/-- `ES2Shader::compile`: cleanup, compile the vertex stage, compile the
fragment stage, link; any stage returning -1 sets `_dead` and stops. -/
def ES2Shader.compile (s : ES2Shader) (gl : GLOracle) : ES2Shader × List GLEvent :=
  let r0 := ES2Shader.cleanup s
  let r1 := ES2Shader._compile_shader r0.1 gl GL_VERTEX_SHADER
  if r1.1 = -1 then
    ({ r1.2.1 with _dead := true }, r0.2 ++ r1.2.2)
  else
    let r2 := ES2Shader._compile_shader r1.2.1 gl GL_FRAGMENT_SHADER
    if r2.1 = -1 then
      ({ r2.2.1 with _dead := true }, r0.2 ++ r1.2.2 ++ r2.2.2)
    else
      let r3 := ES2Shader._link_shader r2.2.1 gl (intToUint r1.1) (intToUint r2.1)
      if r3.1 = -1 then
        ({ r3.2.1 with _dead := true }, r0.2 ++ r1.2.2 ++ r2.2.2 ++ r3.2.2)
      else
        ({ r3.2.1 with _program := r3.1 }, r0.2 ++ r1.2.2 ++ r2.2.2 ++ r3.2.2)

/-- `ES2Shader::use`: binds the program when a handle is present, otherwise
does nothing. -/
def ES2Shader.use (s : ES2Shader) : List GLEvent :=
  if s._program ≠ -1 then [GLEvent.useProgram (intToUint s._program)] else []

/-- States reachable from construction through the public lifecycle
operations (`compile`, `cleanup`; `use` does not change state). -/
inductive Reachable : ES2Shader → Prop where
  | init (vs fs : String) (attributes uniforms : List String) :
      Reachable (Shader.init vs fs attributes uniforms)
  | compile (s : ES2Shader) (gl : GLOracle) :
      Reachable s → Reachable (ES2Shader.compile s gl).1
  | cleanup (s : ES2Shader) :
      Reachable s → Reachable (ES2Shader.cleanup s).1

/-- Modelled from the spec: `asr::Vertex` (declared in asr.h, which is not in
src/) is a plain value with position (3), normal (3), color (4) and texture
coordinate (2) components, in the order the tests construct it.  Float
arithmetic is embedded as exact rational arithmetic. -/
structure Vertex where
  x : ℚ
  y : ℚ
  z : ℚ
  nx : ℚ
  ny : ℚ
  nz : ℚ
  r : ℚ
  g : ℚ
  b : ℚ
  a : ℚ
  u : ℚ
  v : ℚ
  deriving DecidableEq

/-- The math collaborators the sphere generator uses (`cosf`, `sinf`,
`asr::pi`, `asr::two_pi`), kept abstract. -/
structure MathEnv where
  cosf : ℚ → ℚ
  sinf : ℚ → ℚ
  pi : ℚ
  two_pi : ℚ

/-- `generate_rectangle_geometry_data` from rectangle_test.cpp: a grid of
`(height_segments_count+1) × (width_segments_count+1)` vertices and two
triangles (6 indices) per grid cell. -/
def generate_rectangle_geometry_data (width height : ℚ)
    (width_segments_count height_segments_count : Nat) :
    List Vertex × List Nat :=
  let half_height := height * (1 / 2 : ℚ)
  let segment_height := height / (height_segments_count : ℚ)
  let half_width := width * (1 / 2 : ℚ)
  let segment_width := width / (width_segments_count : ℚ)
  let vertices := (List.range (height_segments_count + 1)).flatMap (fun i =>
    let y := (i : ℚ) * segment_height - half_height
    let v := 1 - (i : ℚ) / (height_segments_count : ℚ)
    (List.range (width_segments_count + 1)).map (fun (j : Nat) =>
      let x := (j : ℚ) * segment_width - half_width
      let u := (j : ℚ) / (width_segments_count : ℚ)
      { x := x, y := y, z := 0, nx := 0, ny := 0, nz := 1,
        r := 1, g := 1, b := 1, a := 1, u := u, v := v }))
  let indices := (List.range height_segments_count).flatMap (fun i =>
    (List.range width_segments_count).flatMap (fun j =>
      let index_a := i * (width_segments_count + 1) + j
      let index_b := index_a + 1
      let index_c := index_a + (width_segments_count + 1)
      let index_d := index_c + 1
      [index_a, index_b, index_c, index_b, index_d, index_c]))
  (vertices, indices)

/-- `generate_rectangle_edges_data` from rectangle_test.cpp: the same vertex
grid, with 12 line indices per grid cell. -/
def generate_rectangle_edges_data (width height : ℚ)
    (width_segments_count height_segments_count : Nat) :
    List Vertex × List Nat :=
  let half_height := height * (1 / 2 : ℚ)
  let segment_height := height / (height_segments_count : ℚ)
  let half_width := width * (1 / 2 : ℚ)
  let segment_width := width / (width_segments_count : ℚ)
  let vertices := (List.range (height_segments_count + 1)).flatMap (fun i =>
    let y := (i : ℚ) * segment_height - half_height
    let v := 1 - (i : ℚ) / (height_segments_count : ℚ)
    (List.range (width_segments_count + 1)).map (fun (j : Nat) =>
      let x := (j : ℚ) * segment_width - half_width
      let u := (j : ℚ) / (width_segments_count : ℚ)
      { x := x, y := y, z := 0, nx := 0, ny := 0, nz := 1,
        r := 1, g := 1, b := 1, a := 1, u := u, v := v }))
  let indices := (List.range height_segments_count).flatMap (fun i =>
    (List.range width_segments_count).flatMap (fun j =>
      let index_a := i * (width_segments_count + 1) + j
      let index_b := index_a + 1
      let index_c := index_a + (width_segments_count + 1)
      let index_d := index_c + 1
      [index_a, index_b, index_b, index_c, index_c, index_a,
       index_b, index_d, index_d, index_c, index_c, index_b]))
  (vertices, indices)

/-- `generate_sphere_geometry_data` from transform1_test.cpp: a
`(height_segments_count+1) × (width_segments_count+1)` grid of ring/segment
vertices; each cell emits its first triangle except on ring 0 and its second
triangle except on the last ring. -/
def generate_sphere_geometry_data (env : MathEnv) (radius : ℚ)
    (width_segments_count height_segments_count : Nat) :
    List Vertex × List Nat :=
  let vertices := (List.range (height_segments_count + 1)).flatMap (fun ring =>
    let v := (ring : ℚ) / (height_segments_count : ℚ)
    let phi := v * env.pi
    (List.range (width_segments_count + 1)).map (fun (segment : Nat) =>
      let u := (segment : ℚ) / (width_segments_count : ℚ)
      let theta := u * env.two_pi
      let cos_phi := env.cosf phi
      let sin_phi := env.sinf phi
      let cos_theta := env.cosf theta
      let sin_theta := env.sinf theta
      let y := cos_phi
      let x := sin_phi * cos_theta
      let z := sin_phi * sin_theta
      { x := x * radius, y := y * radius, z := z * radius,
        nx := x, ny := y, nz := z, r := 1, g := 1, b := 1, a := 1,
        u := 1 - u, v := v }))
  let indices := (List.range height_segments_count).flatMap (fun ring =>
    (List.range width_segments_count).flatMap (fun segment =>
      let index_a := ring * (width_segments_count + 1) + segment
      let index_b := index_a + 1
      let index_c := index_a + (width_segments_count + 1)
      let index_d := index_c + 1
      (if ring ≠ 0 then [index_a, index_b, index_c] else []) ++
      (if ring ≠ height_segments_count - 1 then [index_b, index_d, index_c] else [])))
  (vertices, indices)

/-- A GLSL `vec4` color, with exact rational components. -/
structure Vec4 where
  r : ℚ
  g : ℚ
  b : ℚ
  a : ℚ
  deriving DecidableEq

/-- Componentwise `vec4` addition. -/
def addV4 (x y : Vec4) : Vec4 := ⟨x.r + y.r, x.g + y.g, x.b + y.b, x.a + y.a⟩

/-- Componentwise `vec4` subtraction. -/
def subV4 (x y : Vec4) : Vec4 := ⟨x.r - y.r, x.g - y.g, x.b - y.b, x.a - y.a⟩

/-- Componentwise `vec4` multiplication. -/
def mulV4 (x y : Vec4) : Vec4 := ⟨x.r * y.r, x.g * y.g, x.b * y.b, x.a * y.a⟩

/-- GLSL `mix(x, y, a) = x*(1-a) + y*a`. -/
def glslMix (x y t : ℚ) : ℚ := x * (1 - t) + y * t

def TEXTURING_MODE_ADDITION : Int := 0

def TEXTURING_MODE_SUBTRACTION : Int := 1

def TEXTURING_MODE_REVERSE_SUBTRACTION : Int := 2

def TEXTURING_MODE_MODULATION : Int := 3

def TEXTURING_MODE_DECALING : Int := 4

/-- The fragment shader `main` of both tests: `gl_FragColor` starts as the
interpolated fragment color; when texturing is enabled the sampled texel
(`texture2D(texture_sampler, ...)`, passed here as `texel_color`) is combined
according to `texturing_mode`, in the source's branch order. -/
def fragment_shader_main (texture_enabled : Bool) (texturing_mode : Int)
    (fragment_color texel_color : Vec4) : Vec4 :=
  let gl_FragColor := fragment_color
  if texture_enabled then
    if texturing_mode = TEXTURING_MODE_ADDITION then
      addV4 gl_FragColor texel_color
    else if texturing_mode = TEXTURING_MODE_MODULATION then
      mulV4 gl_FragColor texel_color
    else if texturing_mode = TEXTURING_MODE_DECALING then
      { r := glslMix gl_FragColor.r texel_color.r texel_color.a
        g := glslMix gl_FragColor.g texel_color.g texel_color.a
        b := glslMix gl_FragColor.b texel_color.b texel_color.a
        a := gl_FragColor.a }
    else if texturing_mode = TEXTURING_MODE_SUBTRACTION then
      subV4 gl_FragColor texel_color
    else if texturing_mode = TEXTURING_MODE_REVERSE_SUBTRACTION then
      subV4 texel_color gl_FragColor
    else gl_FragColor
  else gl_FragColor

/-- A `glm::vec3`, with exact rational components. -/
structure Vec3 where
  x : ℚ
  y : ℚ
  z : ℚ
  deriving DecidableEq

/-- Modelled from the spec: `asr::Object` (objects/object.h is not in src/)
stores a name, position, rotation (Euler angles), scale, and a non-owning
optional parent reference, modelled as an optional handle. -/
structure Object where
  name : String
  position : Vec3
  rotation : Vec3
  scale : Vec3
  parent : Option Nat

/-- `asr::Mesh`: an `Object` that additionally owns shared references to one
geometry and one material, kept abstract as type parameters. -/
structure Mesh (G M : Type) extends Object where
  _geometry : G
  _material : M

/-- The `Mesh` constructor with all arguments supplied: it forwards
`"untitled mesh"` and the transform/parent arguments to the `Object` base and
stores the geometry and material. -/
def Mesh.make {G M : Type} (geometry : G) (material : M)
    (position rotation scale : Vec3) (parent : Option Nat) : Mesh G M :=
  { name := "untitled mesh", position := position, rotation := rotation,
    scale := scale, parent := parent, _geometry := geometry, _material := material }

/-- The `Mesh` constructor applied with its default arguments: position
`glm::vec4(0.0f)` (truncated to `(0,0,0)`), rotation `(0,0,0)`, scale
`glm::vec4(1.0f)` (truncated to `(1,1,1)`), and an empty parent reference. -/
def Mesh.makeDefault {G M : Type} (geometry : G) (material : M) : Mesh G M :=
  Mesh.make geometry material ⟨0, 0, 0⟩ ⟨0, 0, 0⟩ ⟨1, 1, 1⟩ none

/-- `Mesh::get_geometry`. -/
def Mesh.get_geometry {G M : Type} (m : Mesh G M) : G := m._geometry

/-- `Mesh::get_material`. -/
def Mesh.get_material {G M : Type} (m : Mesh G M) : M := m._material

/-- A GL driver run in which both stages compile, the link succeeds, and none
of the handles collides with the sentinel after the `int` cast. -/
def SuccessOracle (gl : GLOracle) : Prop :=
  gl.vertexCompileOk = true ∧ gl.fragmentCompileOk = true ∧ gl.linkOk = true ∧
  uintToInt gl.vertexShaderId ≠ -1 ∧ uintToInt gl.fragmentShaderId ≠ -1 ∧
  uintToInt gl.programId ≠ -1

/-- A concrete driver that accepts both stages and the link. -/
def glAllOk : GLOracle :=
  { vertexShaderId := 1, fragmentShaderId := 2, programId := 3,
    vertexCompileOk := true, fragmentCompileOk := true, linkOk := true,
    vertexInfoLogLen := 0, fragmentInfoLogLen := 0, linkInfoLogLen := 0,
    attribLocation := fun _ => 7, uniformLocation := fun _ => -1 }

/-- A concrete driver that accepts both stages but rejects the link. -/
def glLinkFail : GLOracle :=
  { glAllOk with linkOk := false, linkInfoLogLen := 12 }

/-- A concrete driver that rejects the vertex stage. -/
def glVertexFail : GLOracle :=
  { glAllOk with vertexCompileOk := false, vertexInfoLogLen := 9 }

/-- A concrete driver that accepts the vertex stage but rejects the fragment
stage. -/
def glFragmentFail : GLOracle :=
  { glAllOk with fragmentCompileOk := false, fragmentInfoLogLen := 9 }

/-- A freshly constructed shader used as a concrete test subject. -/
def sBase : ES2Shader := Shader.init "vs-src" "fs-src" ["position"] ["mvp"]

/-- A shader that has compiled successfully (holds program handle 3). -/
def sCompiled : ES2Shader := (ES2Shader.compile sBase glAllOk).1

/-- A shader that is Dead after a failed link. -/
def sDead : ES2Shader := (ES2Shader.compile sCompiled glLinkFail).1

/-- Trivial math collaborators, used only to instantiate the sphere generator
at concrete arguments (its index structure does not depend on them). -/
def idEnv : MathEnv := { cosf := fun q => q, sinf := fun q => q, pi := 0, two_pi := 0 }

/-! ## Helper lemmas -/

theorem compile_dead_program (s : ES2Shader) (gl : GLOracle) :
    (ES2Shader.compile s gl).1._dead = true → (ES2Shader.compile s gl).1._program = -1 := by
  by_cases hv : gl.vertexCompileOk <;>
  by_cases hf : gl.fragmentCompileOk <;>
  by_cases hl : gl.linkOk <;>
  by_cases hvi : uintToInt gl.vertexShaderId = -1 <;>
  by_cases hfi : uintToInt gl.fragmentShaderId = -1 <;>
  by_cases hpi : uintToInt gl.programId = -1 <;>
  simp [ES2Shader.compile, ES2Shader._compile_shader, ES2Shader._link_shader,
    ES2Shader.cleanup, GL_FRAGMENT_SHADER, GL_VERTEX_SHADER, hv, hf, hl, hvi, hfi, hpi]

theorem reachable_dead_program {s : ES2Shader} (h : Reachable s) :
    s._dead = true → s._program = -1 := by
  induction h with
  | init vs fs attributes uniforms => simp [Shader.init]
  | compile s gl _ _ => exact compile_dead_program s gl
  | cleanup s _ _ => simp [ES2Shader.cleanup]

theorem compile_success_state (s : ES2Shader) (gl : GLOracle) (h : SuccessOracle gl) :
    (ES2Shader.compile s gl).1._dead = false ∧
    (ES2Shader.compile s gl).1._program = uintToInt gl.programId ∧
    (ES2Shader.compile s gl).1._attributes =
      s._attributes.map (fun a => (a.1, gl.attribLocation a.1)) ∧
    (ES2Shader.compile s gl).1._uniforms =
      s._uniforms.map (fun u => (u.1, gl.uniformLocation u.1)) := by
  obtain ⟨hv, hf, hl, hvi, hfi, hpi⟩ := h
  simp [ES2Shader.compile, ES2Shader._compile_shader, ES2Shader._link_shader,
    ES2Shader.cleanup, GL_FRAGMENT_SHADER, GL_VERTEX_SHADER, hv, hf, hl, hvi, hfi, hpi]

theorem compile_failure_maps_unchanged (s : ES2Shader) (gl : GLOracle)
    (h : gl.vertexCompileOk = false ∨ gl.fragmentCompileOk = false ∨ gl.linkOk = false) :
    (ES2Shader.compile s gl).1._attributes = s._attributes ∧
    (ES2Shader.compile s gl).1._uniforms = s._uniforms := by
  by_cases hv : gl.vertexCompileOk <;>
  by_cases hf : gl.fragmentCompileOk <;>
  by_cases hl : gl.linkOk <;>
  by_cases hvi : uintToInt gl.vertexShaderId = -1 <;>
  by_cases hfi : uintToInt gl.fragmentShaderId = -1 <;>
  simp_all [ES2Shader.compile, ES2Shader._compile_shader, ES2Shader._link_shader,
    ES2Shader.cleanup, GL_FRAGMENT_SHADER, GL_VERTEX_SHADER]

theorem compile_head_deletes_prior (s : ES2Shader) (gl : GLOracle)
    (hp : s._program ≠ -1) :
    (ES2Shader.compile s gl).2.head? = some (GLEvent.deleteProgram (intToUint s._program)) := by
  by_cases hv : gl.vertexCompileOk <;>
  by_cases hf : gl.fragmentCompileOk <;>
  by_cases hl : gl.linkOk <;>
  by_cases hvi : uintToInt gl.vertexShaderId = -1 <;>
  by_cases hfi : uintToInt gl.fragmentShaderId = -1 <;>
  by_cases hpi : uintToInt gl.programId = -1 <;>
  simp [ES2Shader.compile, ES2Shader._compile_shader, ES2Shader._link_shader,
    ES2Shader.cleanup, GL_FRAGMENT_SHADER, GL_VERTEX_SHADER, hv, hf, hl, hvi, hfi, hpi, hp]

theorem link_failure_no_delete_shader (s : ES2Shader) (gl : GLOracle)
    (hv : gl.vertexCompileOk = true) (hf : gl.fragmentCompileOk = true)
    (hl : gl.linkOk = false)
    (hvi : uintToInt gl.vertexShaderId ≠ -1) (hfi : uintToInt gl.fragmentShaderId ≠ -1) :
    (ES2Shader.compile s gl).1._dead = true ∧
    (ES2Shader.compile s gl).1._program = -1 ∧
    ∀ obj, GLEvent.deleteShader obj ∉ (ES2Shader.compile s gl).2 := by
  by_cases hp : s._program = -1 <;>
  by_cases hll : (0 : Int) < gl.linkInfoLogLen <;>
  simp [ES2Shader.compile, ES2Shader._compile_shader, ES2Shader._link_shader,
    ES2Shader.cleanup, GL_FRAGMENT_SHADER, GL_VERTEX_SHADER, hv, hf, hl, hvi, hfi, hp, hll]

theorem vertex_failure_stops (s : ES2Shader) (gl : GLOracle)
    (hv : gl.vertexCompileOk = false) :
    (ES2Shader.compile s gl).1._dead = true ∧
    (ES2Shader.compile s gl).1._program = -1 ∧
    (0 < gl.vertexInfoLogLen →
      GLEvent.logReport gl.vertexShaderId ∈ (ES2Shader.compile s gl).2) ∧
    (∀ obj, GLEvent.createShader GL_FRAGMENT_SHADER obj ∉ (ES2Shader.compile s gl).2) := by
  by_cases hp : s._program = -1 <;>
  by_cases hvl : (0 : Int) < gl.vertexInfoLogLen <;>
  simp [ES2Shader.compile, ES2Shader._compile_shader, ES2Shader._link_shader,
    ES2Shader.cleanup, GL_FRAGMENT_SHADER, GL_VERTEX_SHADER, hv, hp, hvl]

theorem fragment_failure_stops (s : ES2Shader) (gl : GLOracle)
    (hv : gl.vertexCompileOk = true) (hvi : uintToInt gl.vertexShaderId ≠ -1)
    (hf : gl.fragmentCompileOk = false) :
    (ES2Shader.compile s gl).1._dead = true ∧
    (ES2Shader.compile s gl).1._program = -1 ∧
    (0 < gl.fragmentInfoLogLen →
      GLEvent.logReport gl.fragmentShaderId ∈ (ES2Shader.compile s gl).2) ∧
    (∀ p, GLEvent.linkProgram p ∉ (ES2Shader.compile s gl).2) := by
  by_cases hp : s._program = -1 <;>
  by_cases hfl : (0 : Int) < gl.fragmentInfoLogLen <;>
  simp [ES2Shader.compile, ES2Shader._compile_shader, ES2Shader._link_shader,
    ES2Shader.cleanup, GL_FRAGMENT_SHADER, GL_VERTEX_SHADER, hv, hvi, hf, hp, hfl]

theorem lookup_map_resolved (f : String → Int) (l : List (String × Int)) (n : String)
    (hn : n ∈ l.map Prod.fst) :
    (l.map (fun a => (a.1, f a.1))).lookup n = some (f n) := by
  induction l with
  | nil => simp at hn
  | cons hd tl ih =>
    by_cases he : n = hd.1
    · subst he
      simp [List.lookup_cons]
    · have hb : (n == hd.1) = false := by simp [he]
      have hn2 : n ∈ tl.map Prod.fst := by
        rcases List.mem_cons.mp hn with h | h
        · exact absurd h he
        · exact h
      simp [List.lookup_cons, hb, ih hn2]

theorem length_flatMap_const {α : Type} (n k : Nat) (f : Nat → List α)
    (h : ∀ i, (f i).length = k) : ((List.range n).flatMap f).length = n * k := by
  induction n with
  | zero => simp
  | succ m ih => simp [List.range_succ, ih, h, Nat.succ_mul]

theorem length_flatMap_sum {α : Type} (n : Nat) (f : Nat → List α) :
    ((List.range n).flatMap f).length = ((List.range n).map (fun i => (f i).length)).sum := by
  induction n with
  | zero => simp
  | succ m ih => simp [List.range_succ, ih]

theorem sum_map_const_range (k c : Nat) : ((List.range k).map (fun _ => c)).sum = k * c := by
  induction k with
  | zero => simp
  | succ t ih => rw [List.range_succ]; simp [ih, Nat.succ_mul]

theorem rect_vertices_length (width height : ℚ) (m n : Nat) :
    (generate_rectangle_geometry_data width height m n).1.length = (m + 1) * (n + 1) := by
  simp only [generate_rectangle_geometry_data]
  rw [length_flatMap_const (n + 1) (m + 1) _ (fun i => by simp)]
  ring

theorem rect_indices_length (width height : ℚ) (m n : Nat) :
    (generate_rectangle_geometry_data width height m n).2.length = 6 * m * n := by
  simp only [generate_rectangle_geometry_data]
  rw [length_flatMap_const n (m * 6) _
    (fun i => length_flatMap_const m 6 _ (fun j => by simp))]
  ring

theorem edges_vertices_eq (width height : ℚ) (m n : Nat) :
    (generate_rectangle_edges_data width height m n).1 =
      (generate_rectangle_geometry_data width height m n).1 := rfl

theorem edges_indices_length (width height : ℚ) (m n : Nat) :
    (generate_rectangle_edges_data width height m n).2.length = 12 * m * n := by
  simp only [generate_rectangle_edges_data]
  rw [length_flatMap_const n (m * 12) _
    (fun i => length_flatMap_const m 12 _ (fun j => by simp))]
  ring

theorem sphere_vertices_length (env : MathEnv) (radius : ℚ) (m n : Nat) :
    (generate_sphere_geometry_data env radius m n).1.length = (m + 1) * (n + 1) := by
  simp only [generate_sphere_geometry_data]
  rw [length_flatMap_const (n + 1) (m + 1) _ (fun i => by simp)]
  ring

theorem sphere_ring_length (env : MathEnv) (radius : ℚ) (m n : Nat) :
    (generate_sphere_geometry_data env radius m n).2.length =
      ((List.range n).map (fun ring =>
        m * ((if ring ≠ 0 then 3 else 0) + (if ring ≠ n - 1 then 3 else 0)))).sum := by
  simp only [generate_sphere_geometry_data]
  rw [length_flatMap_sum]
  congr 1
  apply List.map_congr_left
  intro ring _
  rw [length_flatMap_const m ((if ring ≠ 0 then 3 else 0) + (if ring ≠ n - 1 then 3 else 0)) _
    (fun j => by simp only [List.length_append]; congr 1 <;> split <;> simp)]

theorem sum_map_add_split (l : List Nat) (f g : Nat → Nat) :
    (l.map (fun i => f i + g i)).sum = (l.map f).sum + (l.map g).sum := by
  induction l with
  | nil => simp
  | cons hd tl ih => simp [ih]; omega

theorem sum_map_mul_left (l : List Nat) (c : Nat) (f : Nat → Nat) :
    (l.map (fun i => c * f i)).sum = c * (l.map f).sum := by
  induction l with
  | nil => simp
  | cons hd tl ih => simp [ih, Nat.mul_add]

theorem sum_ite_ne_zero (n : Nat) :
    ((List.range n).map (fun i => if i ≠ 0 then 3 else 0)).sum = 3 * (n - 1) := by
  induction n with
  | zero => simp
  | succ k ih =>
    rw [List.range_succ]
    simp only [List.map_append, List.sum_append, ih]
    cases k with
    | zero => simp
    | succ t => simp; omega

theorem sum_ite_ne_last (n : Nat) :
    ((List.range n).map (fun i => if i ≠ n - 1 then 3 else 0)).sum = 3 * (n - 1) := by
  cases n with
  | zero => simp
  | succ k =>
    rw [List.range_succ]
    simp only [List.map_append, List.sum_append]
    have h1 : (List.range k).map (fun i => if i ≠ (k + 1) - 1 then 3 else 0)
        = (List.range k).map (fun _ => 3) := by
      apply List.map_congr_left
      intro i hi
      have : i < k := List.mem_range.mp hi
      simp
      omega
    rw [h1, sum_map_const_range]
    simp
    omega

theorem sphere_indices_length (env : MathEnv) (radius : ℚ) (m n : Nat) :
    (generate_sphere_geometry_data env radius m n).2.length = 6 * m * (n - 1) := by
  rw [sphere_ring_length, sum_map_mul_left, sum_map_add_split, sum_ite_ne_zero,
    sum_ite_ne_last]
  ring

theorem cell_index_bound {i j w h : Nat} (hi : i < h) (hj : j < w) :
    i * (w + 1) + j + (w + 1) + 1 < (h + 1) * (w + 1) := by
  have h1 : (i + 1) * (w + 1) ≤ h * (w + 1) := Nat.mul_le_mul_right _ hi
  nlinarith

theorem rect_indices_bound (width height : ℚ) (m n : Nat) :
    ∀ x ∈ (generate_rectangle_geometry_data width height m n).2, x < (m + 1) * (n + 1) := by
  simp only [generate_rectangle_geometry_data]
  intro x hx
  simp only [List.mem_flatMap, List.mem_range] at hx
  obtain ⟨i, hi, j, hj, hx⟩ := hx
  have hb := cell_index_bound hi hj
  have hc : (n + 1) * (m + 1) = (m + 1) * (n + 1) := by ring
  fin_cases hx <;> omega

theorem edges_indices_bound (width height : ℚ) (m n : Nat) :
    ∀ x ∈ (generate_rectangle_edges_data width height m n).2, x < (m + 1) * (n + 1) := by
  simp only [generate_rectangle_edges_data]
  intro x hx
  simp only [List.mem_flatMap, List.mem_range] at hx
  obtain ⟨i, hi, j, hj, hx⟩ := hx
  have hb := cell_index_bound hi hj
  have hc : (n + 1) * (m + 1) = (m + 1) * (n + 1) := by ring
  fin_cases hx <;> omega

theorem sphere_indices_bound (env : MathEnv) (radius : ℚ) (m n : Nat) :
    ∀ x ∈ (generate_sphere_geometry_data env radius m n).2, x < (m + 1) * (n + 1) := by
  simp only [generate_sphere_geometry_data]
  intro x hx
  simp only [List.mem_flatMap, List.mem_range, List.mem_append] at hx
  obtain ⟨i, hi, j, hj, hx⟩ := hx
  have hb := cell_index_bound hi hj
  have hc : (n + 1) * (m + 1) = (m + 1) * (n + 1) := by ring
  rcases hx with hx | hx <;> split at hx <;> simp at hx <;>
    rcases hx with hx | hx | hx <;> omega

/-! ## Claim theorems -/

/-- C1: `use()` calls `glUseProgram` on the stored handle exactly when the
program is Compiled (a non -1 handle); on an Uninitialized (`_program = -1`)
or Dead (reachable with `_dead = true`) program it performs no GL call. -/
theorem use_binds_exactly_when_compiled (s : ES2Shader) (h : Reachable s) :
    (s._program ≠ -1 → ES2Shader.use s = [GLEvent.useProgram (intToUint s._program)]) ∧
    (s._program = -1 → ES2Shader.use s = []) ∧
    (s._dead = true → ES2Shader.use s = []) := by
  refine ⟨fun hp => by simp [ES2Shader.use, hp], fun hp => by simp [ES2Shader.use, hp],
    fun hd => by simp [ES2Shader.use, reachable_dead_program h hd]⟩

/-- C1 witness: a fresh shader and a dead shader bind nothing; a compiled one
binds its program. -/
theorem use_binds_exactly_when_compiled_witness :
    ES2Shader.use sBase = [] ∧
    ES2Shader.use (ES2Shader.compile sBase glVertexFail).1 = [] ∧
    ES2Shader.use (ES2Shader.compile sBase glAllOk).1 = [GLEvent.useProgram 3] := by
  refine ⟨(use_binds_exactly_when_compiled sBase
      (Reachable.init "vs-src" "fs-src" ["position"] ["mvp"])).2.1 (by decide),
    (use_binds_exactly_when_compiled _
      (Reachable.compile sBase glVertexFail
        (Reachable.init "vs-src" "fs-src" ["position"] ["mvp"]))).2.2 (by decide),
    ?_⟩
  have := (use_binds_exactly_when_compiled _
    (Reachable.compile sBase glAllOk
      (Reachable.init "vs-src" "fs-src" ["position"] ["mvp"]))).1 (by decide)
  simpa using this

/-- C2 counterexample: when the link fails after both stages compiled, the
program does transition to Dead, but `glDeleteShader` is called on neither
shader object — lines 147-148 of es2_shader.h run only on the success path,
so the two shader objects leak, contrary to the claim. -/
theorem link_failure_claim_counterexample :
    (ES2Shader.compile sBase glLinkFail).1._dead = true ∧
    ¬ (GLEvent.deleteShader 1 ∈ (ES2Shader.compile sBase glLinkFail).2 ∨
       GLEvent.deleteShader 2 ∈ (ES2Shader.compile sBase glLinkFail).2) := by decide

/-- C2 amended: on the link-failure path `compile()` transitions the program
to Dead with no retained handle, but it never calls `glDeleteShader`, so the
two already-compiled shader objects are leaked, not released. -/
theorem link_failure_dead_no_release (s : ES2Shader) (gl : GLOracle)
    (hv : gl.vertexCompileOk = true) (hf : gl.fragmentCompileOk = true)
    (hl : gl.linkOk = false)
    (hvi : uintToInt gl.vertexShaderId ≠ -1) (hfi : uintToInt gl.fragmentShaderId ≠ -1) :
    (ES2Shader.compile s gl).1._dead = true ∧
    (ES2Shader.compile s gl).1._program = -1 ∧
    ∀ obj, GLEvent.deleteShader obj ∉ (ES2Shader.compile s gl).2 :=
  link_failure_no_delete_shader s gl hv hf hl hvi hfi

/-- C2 witness: the amended statement at a concrete link-failing driver. -/
theorem link_failure_dead_no_release_witness :
    (ES2Shader.compile sBase glLinkFail).1._dead = true ∧
    (ES2Shader.compile sBase glLinkFail).1._program = -1 ∧
    ∀ obj, GLEvent.deleteShader obj ∉ (ES2Shader.compile sBase glLinkFail).2 :=
  link_failure_dead_no_release sBase glLinkFail (by decide) (by decide) (by decide)
    (by decide) (by decide)

/-- C3: a vertex-stage compile failure reports the diagnostic log (when the
driver reports one), kills the program, and never creates the fragment stage;
a fragment-stage failure after a successful vertex stage kills the program
and never links. -/
theorem stage_failure_reports_and_stops (s : ES2Shader) (gl : GLOracle) :
    (gl.vertexCompileOk = false →
      (ES2Shader.compile s gl).1._dead = true ∧
      (0 < gl.vertexInfoLogLen →
        GLEvent.logReport gl.vertexShaderId ∈ (ES2Shader.compile s gl).2) ∧
      (∀ obj, GLEvent.createShader GL_FRAGMENT_SHADER obj ∉ (ES2Shader.compile s gl).2)) ∧
    (gl.vertexCompileOk = true → uintToInt gl.vertexShaderId ≠ -1 →
      gl.fragmentCompileOk = false →
      (ES2Shader.compile s gl).1._dead = true ∧
      (∀ p, GLEvent.linkProgram p ∉ (ES2Shader.compile s gl).2)) := by
  constructor
  · intro hv
    obtain ⟨h1, _, h3, h4⟩ := vertex_failure_stops s gl hv
    exact ⟨h1, h3, h4⟩
  · intro hv hvi hf
    obtain ⟨h1, _, _, h4⟩ := fragment_failure_stops s gl hv hvi hf
    exact ⟨h1, h4⟩

/-- C3 witness: both failure shapes at concrete drivers. -/
theorem stage_failure_reports_and_stops_witness :
    ((ES2Shader.compile sBase glVertexFail).1._dead = true ∧
      GLEvent.logReport 1 ∈ (ES2Shader.compile sBase glVertexFail).2 ∧
      GLEvent.createShader GL_FRAGMENT_SHADER 2 ∉ (ES2Shader.compile sBase glVertexFail).2) ∧
    ((ES2Shader.compile sBase glFragmentFail).1._dead = true ∧
      GLEvent.linkProgram 3 ∉ (ES2Shader.compile sBase glFragmentFail).2) := by
  have h1 := (stage_failure_reports_and_stops sBase glVertexFail).1 (by decide)
  have h2 := (stage_failure_reports_and_stops sBase glFragmentFail).2 (by decide) (by decide)
    (by decide)
  exact ⟨⟨h1.1, h1.2.1 (by decide), h1.2.2 2⟩, ⟨h2.1, h2.2 3⟩⟩

/-- C4: `compile()` first releases any prior program (the very first GL call
is `glDeleteProgram` on the old handle, so two handles are never retained),
and a Dead program recompiled under a fully successful driver ends Compiled
with the Dead flag clear. -/
theorem compile_clears_prior_then_recovers (s : ES2Shader) (gl : GLOracle) :
    (s._program ≠ -1 →
      (ES2Shader.compile s gl).2.head? =
        some (GLEvent.deleteProgram (intToUint s._program))) ∧
    (s._dead = true → SuccessOracle gl →
      (ES2Shader.compile s gl).1._dead = false ∧
      (ES2Shader.compile s gl).1._program = uintToInt gl.programId ∧
      (ES2Shader.compile s gl).1._program ≠ -1) := by
  refine ⟨fun hp => compile_head_deletes_prior s gl hp, fun _ hgl => ?_⟩
  obtain ⟨h1, h2, _, _⟩ := compile_success_state s gl hgl
  exact ⟨h1, h2, by rw [h2]; exact hgl.2.2.2.2.2⟩

/-- C4 witness: recompiling a compiled shader deletes handle 3 first, and a
Dead shader recovers to Compiled under a successful driver. -/
theorem compile_clears_prior_then_recovers_witness :
    (ES2Shader.compile sCompiled glAllOk).2.head? = some (GLEvent.deleteProgram 3) ∧
    ((ES2Shader.compile sDead glAllOk).1._dead = false ∧
      (ES2Shader.compile sDead glAllOk).1._program = 3 ∧
      (ES2Shader.compile sDead glAllOk).1._program ≠ -1) := by
  constructor
  · have := (compile_clears_prior_then_recovers sCompiled glAllOk).1 (by decide)
    simpa using this
  · have := (compile_clears_prior_then_recovers sDead glAllOk).2 (by decide)
      ⟨by decide, by decide, by decide, by decide, by decide, by decide⟩
    simpa using this

/-- C5: `cleanup()` releases the program iff one is present, resets to
Uninitialized with the Dead flag clear, and is idempotent — the second call
returns the same state and performs no GL call at all. -/
theorem cleanup_resets_and_idempotent (s : ES2Shader) :
    (ES2Shader.cleanup s).1._program = -1 ∧
    (ES2Shader.cleanup s).1._dead = false ∧
    (ES2Shader.cleanup s).2 =
      (if s._program ≠ -1 then [GLEvent.deleteProgram (intToUint s._program)] else []) ∧
    ES2Shader.cleanup (ES2Shader.cleanup s).1 = ((ES2Shader.cleanup s).1, []) := by
  simp [ES2Shader.cleanup]

/-- C6: after a fully successful `compile()` every declared attribute and
uniform name is mapped to the location the driver resolves it to (which may
legally be -1), and when any stage of compilation or linking fails the
name-to-location mappings are left untouched. -/
theorem link_success_resolves_all_names (gl : GLOracle) (s : ES2Shader)
    (vs fs : String) (attributes uniforms : List String) :
    (SuccessOracle gl →
      (∀ n ∈ attributes,
        ((ES2Shader.compile (Shader.init vs fs attributes uniforms) gl).1._attributes).lookup n
          = some (gl.attribLocation n)) ∧
      (∀ n ∈ uniforms,
        ((ES2Shader.compile (Shader.init vs fs attributes uniforms) gl).1._uniforms).lookup n
          = some (gl.uniformLocation n))) ∧
    ((gl.vertexCompileOk = false ∨ gl.fragmentCompileOk = false ∨ gl.linkOk = false) →
      (ES2Shader.compile s gl).1._attributes = s._attributes ∧
      (ES2Shader.compile s gl).1._uniforms = s._uniforms) := by
  constructor
  · intro hgl
    obtain ⟨_, _, ha, hu⟩ := compile_success_state (Shader.init vs fs attributes uniforms) gl hgl
    constructor
    · intro n hn
      rw [ha]
      exact lookup_map_resolved gl.attribLocation _ n (by simp [Shader.init]; exact hn)
    · intro n hn
      rw [hu]
      exact lookup_map_resolved gl.uniformLocation _ n (by simp [Shader.init]; exact hn)
  · exact compile_failure_maps_unchanged s gl

/-- C6 witness: concrete resolution to 7 and to the legal -1, and untouched
maps on a failing driver. -/
theorem link_success_resolves_all_names_witness :
    (((ES2Shader.compile sBase glAllOk).1._attributes).lookup "position" = some 7 ∧
      ((ES2Shader.compile sBase glAllOk).1._uniforms).lookup "mvp" = some (-1)) ∧
    ((ES2Shader.compile sBase glVertexFail).1._attributes = sBase._attributes ∧
      (ES2Shader.compile sBase glVertexFail).1._uniforms = sBase._uniforms) := by
  have h1 := (link_success_resolves_all_names glAllOk sBase "vs-src" "fs-src"
    ["position"] ["mvp"]).1
    ⟨by decide, by decide, by decide, by decide, by decide, by decide⟩
  have h2 := (link_success_resolves_all_names glVertexFail sBase "vs-src" "fs-src"
    ["position"] ["mvp"]).2 (Or.inl (by decide))
  exact ⟨⟨h1.1 "position" (by decide), h1.2 "mvp" (by decide)⟩, h2⟩

/-- C7: for positive segment counts the rectangle generator returns
`(m+1)*(n+1)` vertices and `6*m*n` indices, the sphere generator returns
`(m+1)*(n+1)` vertices and `6*m*(n-1)` indices, and in both results every
index is strictly below the vertex count. -/
theorem geometry_counts_and_index_invariant (width height radius : ℚ) (env : MathEnv)
    (m n : Nat) (hm : 0 < m) (hn : 0 < n) :
    (generate_rectangle_geometry_data width height m n).1.length = (m + 1) * (n + 1) ∧
    (generate_rectangle_geometry_data width height m n).2.length = 6 * m * n ∧
    (∀ x ∈ (generate_rectangle_geometry_data width height m n).2,
      x < (generate_rectangle_geometry_data width height m n).1.length) ∧
    (generate_sphere_geometry_data env radius m n).1.length = (m + 1) * (n + 1) ∧
    (generate_sphere_geometry_data env radius m n).2.length = 6 * m * (n - 1) ∧
    (∀ x ∈ (generate_sphere_geometry_data env radius m n).2,
      x < (generate_sphere_geometry_data env radius m n).1.length) := by
  refine ⟨rect_vertices_length width height m n, rect_indices_length width height m n, ?_,
    sphere_vertices_length env radius m n, sphere_indices_length env radius m n, ?_⟩
  · rw [rect_vertices_length]
    exact rect_indices_bound width height m n
  · rw [sphere_vertices_length]
    exact sphere_indices_bound env radius m n

/-- C7 witness: the spec's unit square (m = n = 1) has 4 vertices and 6
in-range indices; the degenerate one-ring sphere has 0 indices. -/
theorem geometry_counts_and_index_invariant_witness :
    (generate_rectangle_geometry_data 1 1 1 1).1.length = 4 ∧
    (generate_rectangle_geometry_data 1 1 1 1).2.length = 6 ∧
    (∀ x ∈ (generate_rectangle_geometry_data 1 1 1 1).2,
      x < (generate_rectangle_geometry_data 1 1 1 1).1.length) ∧
    (generate_sphere_geometry_data idEnv 1 1 1).2.length = 0 := by
  have h := geometry_counts_and_index_invariant 1 1 1 idEnv 1 1 (by decide) (by decide)
  exact ⟨by rw [h.1], by rw [h.2.1], h.2.2.1, by rw [h.2.2.2.2.1]⟩

/-- C8: with texturing enabled the fragment shader combines the fragment
color `c` and the sampled texel `t` by mode — addition `c+t`, subtraction
`c-t`, reverse subtraction `t-c`, modulation `c*t`, decaling `c` with rgb
replaced by `mix(c.rgb, t.rgb, t.a)` — and with texturing disabled it returns
`c` unchanged for every mode. -/
theorem texturing_mode_combination (c t : Vec4) :
    fragment_shader_main true TEXTURING_MODE_ADDITION c t = addV4 c t ∧
    fragment_shader_main true TEXTURING_MODE_SUBTRACTION c t = subV4 c t ∧
    fragment_shader_main true TEXTURING_MODE_REVERSE_SUBTRACTION c t = subV4 t c ∧
    fragment_shader_main true TEXTURING_MODE_MODULATION c t = mulV4 c t ∧
    fragment_shader_main true TEXTURING_MODE_DECALING c t =
      { r := glslMix c.r t.r t.a, g := glslMix c.g t.g t.a,
        b := glslMix c.b t.b t.a, a := c.a } ∧
    (∀ texturing_mode : Int, fragment_shader_main false texturing_mode c t = c) :=
  ⟨rfl, rfl, rfl, rfl, rfl, fun _ => rfl⟩

/-- C9: the two rectangle generators produce identical vertex sequences and
differ only in their index sequences (6 triangle indices versus 12 line
indices per cell). -/
theorem rectangle_generators_share_vertices (width height : ℚ) (m n : Nat) :
    (generate_rectangle_geometry_data width height m n).1 =
      (generate_rectangle_edges_data width height m n).1 ∧
    (generate_rectangle_geometry_data width height m n).2.length = 6 * m * n ∧
    (generate_rectangle_edges_data width height m n).2.length = 12 * m * n :=
  ⟨(edges_vertices_eq width height m n).symm, rect_indices_length width height m n,
    edges_indices_length width height m n⟩

/-- C10: a Mesh built from only a geometry and a material gets the default
name "untitled mesh", position (0,0,0), rotation (0,0,0), scale (1,1,1) and
no parent, and the getters return exactly the constructor arguments. -/
theorem mesh_defaults_and_getters {G M : Type} (geometry : G) (material : M) :
    (Mesh.makeDefault geometry material).name = "untitled mesh" ∧
    (Mesh.makeDefault geometry material).position = ⟨0, 0, 0⟩ ∧
    (Mesh.makeDefault geometry material).rotation = ⟨0, 0, 0⟩ ∧
    (Mesh.makeDefault geometry material).scale = ⟨1, 1, 1⟩ ∧
    (Mesh.makeDefault geometry material).parent = none ∧
    Mesh.get_geometry (Mesh.makeDefault geometry material) = geometry ∧
    Mesh.get_material (Mesh.makeDefault geometry material) = material ∧
    ∀ (position rotation scale : Vec3) (parent : Option Nat),
      Mesh.get_geometry (Mesh.make geometry material position rotation scale parent)
        = geometry ∧
      Mesh.get_material (Mesh.make geometry material position rotation scale parent)
        = material :=
  ⟨rfl, rfl, rfl, rfl, rfl, rfl, rfl, fun _ _ _ _ => ⟨rfl, rfl⟩⟩

end asr
